import Mathlib

/-!
Verification of the library inventory core (`code.py`): the `Book` entity
(normalized fields, two-state status machine) and the `LibraryInventory`
catalog (ordered list of books with JSON load/save, add, and search).

Modelling conventions:
* Python strings are Lean `String`s; `str.lower()` and `str.strip()` are
  modelled by `pyLower` and `pyStrip` below (ASCII case folding and
  whitespace trimming over the character list, matching CPython's behaviour
  on the ASCII data this program handles).
* A JSON object with string values is modelled as an association list
  (`Dict`); `dict.get(key, default)` is `dictGet` plus `Option.getD`.
* `json.dump`/`json.load` (Python standard library, external to the
  repository) are treated as inverse on well-formed data: `save_to_file`
  passes the structured list `books.map Book.to_dict` to the encoder, and
  `load_from_file` receives either a parse failure or the decoded
  structured list.  The concrete text `json.dump(..., indent=4)` produces
  is modelled by `dumpJson` (needed to analyse what a failed write leaves
  in the file).  `Json` and `load_from_file_json` additionally model the
  general decoded value of arbitrary shape, with `Option` capturing an
  exception escaping the function: only `JSONDecodeError` and `OSError`
  are caught by the source, so decoded content outside the
  structured-list shape raises out of `load_from_file`.
* Mutation of `self` becomes explicit state passing: `Book.issue` returns
  the boolean result together with the updated book, and the catalog
  operations take and return the `List Book` that models `self.books`.
-/

/-- Model of Python `str.lower()`: ASCII case folding applied to every
character of the string. -/
def pyLower (s : String) : String :=
  ⟨s.data.map Char.toLower⟩

/-- Model of Python `str.strip()`: remove leading and trailing whitespace
characters. -/
def pyStrip (s : String) : String :=
  ⟨((s.data.dropWhile Char.isWhitespace).reverse.dropWhile Char.isWhitespace).reverse⟩

/-- Model of Python `s[:n]` on text written so far: the first `n`
characters of a string. -/
def strTake (s : String) (n : Nat) : String :=
  ⟨s.data.take n⟩

/-- Model of Python's substring test `needle in hay` on character lists:
true iff `needle` occurs contiguously inside `hay`. -/
def containsSub (needle : List Char) : List Char → Bool
  | [] => needle.isPrefixOf []
  | c :: t => needle.isPrefixOf (c :: t) || containsSub needle t

/-- The `Book` entity of `code.py`: title, author, isbn and status, all
strings.  The constructor `Book.init` below performs the normalization of
`Book.__init__`. -/
structure Book where
  title : String
  author : String
  isbn : String
  status : String
deriving DecidableEq, Repr

/-- Embedding of `Book.__init__`: trims title/author/isbn; replaces the
status by "available" unless it case-insensitively matches "available" or
"issued"; stores the lower-cased status. -/
def Book.init (title author isbn status : String) : Book :=
  let status1 := if pyLower status = "available" ∨ pyLower status = "issued" then status
    else "available"
  { title := pyStrip title
    author := pyStrip author
    isbn := pyStrip isbn
    status := pyLower status1 }

/-- A JSON object with string values, as an association list from keys to
values (insertion order preserved, as in a Python dict). -/
abbrev Dict := List (String × String)

/-- Model of Python `dict.get(key)`: the value at the first occurrence of
the key, or `none` when the key is absent.  Extra keys are simply never
looked at. -/
def dictGet (d : Dict) (k : String) : Option String :=
  (d.find? (fun kv => kv.1 == k)).map (fun kv => kv.2)

/-- Embedding of `Book.to_dict`: the four-field dictionary passed to the
JSON encoder, status already lower-cased by construction. -/
def Book.to_dict (b : Book) : Dict :=
  [("title", b.title), ("author", b.author), ("isbn", b.isbn), ("status", b.status)]

/-- Embedding of `Book.from_dict`: builds a `Book` through `Book.init`,
defaulting absent title/author/isbn to `""` and absent status to
`"available"` exactly as the Python `data.get(...)` calls do. -/
def Book.from_dict (d : Dict) : Book :=
  Book.init
    ((dictGet d "title").getD "")
    ((dictGet d "author").getD "")
    ((dictGet d "isbn").getD "")
    ((dictGet d "status").getD "available")

/-- Embedding of `Book.issue`: returns `false` and the unchanged book when
the status is already "issued", otherwise `true` and the book with status
set to "issued". -/
def Book.issue (b : Book) : Bool × Book :=
  if b.status = "issued" then (false, b)
  else (true, { b with status := "issued" })

/-- Embedding of `Book.return_book`: returns `false` and the unchanged book
when the status is already "available", otherwise `true` and the book with
status set to "available". -/
def Book.return_book (b : Book) : Bool × Book :=
  if b.status = "available" then (false, b)
  else (true, { b with status := "available" })

/-- Embedding of `Book.is_available`. -/
def Book.is_available (b : Book) : Bool :=
  b.status == "available"

/-- What `load_from_file` can encounter at the data file: the file is
missing, its content fails `json.load` (JSONDecodeError), reading raises an
OSError, or it decodes to a structured list of objects.  The `ok` case
carries data already in the structured-list shape (a list of string-valued
objects) — the fragment the save/load round trip and the duplicate-store
analysis use, on which the source really is mapped deserialization.
Decoded content outside that shape is not representable here; `Json`,
`JsonLoadSource` and `load_from_file_json` below model the source on an
arbitrary decoded value, where such content makes the body raise. -/
inductive LoadSource where
  | missing
  | decodeError
  | osError
  | ok (data : List Dict)

/-- The observable outcome `load_from_file` reports (log/print channel):
a fresh empty catalog for a missing file, a success message, a corruption
warning, or a read-error message.  None of these aborts the process. -/
inductive LoadOutcome where
  | freshEmpty
  | loadedOk
  | corruptWarning
  | readError
deriving DecidableEq, Repr

/-- Embedding of `LibraryInventory.load_from_file` on the well-formed
fragment of `LoadSource`: a missing file yields an empty catalog (info
only), a JSON decode error or an OSError yields an empty catalog with the
corresponding warning, and decoded structured-list data is mapped through
`Book.from_dict` in order.  This function is total only because its input
type is so restricted; `load_from_file_json` below is the full model, in
which decoded content outside the structured-list shape escapes as an
uncaught exception. -/
def load_from_file : LoadSource → List Book × LoadOutcome
  | .missing => ([], .freshEmpty)
  | .decodeError => ([], .corruptWarning)
  | .osError => ([], .readError)
  | .ok data => (data.map Book.from_dict, .loadedOk)

/-- Lower-case hexadecimal digit, as produced by Python's json encoder in
`\uXXXX` escapes. -/
def hexDigit (n : Nat) : Char :=
  if n < 10 then Char.ofNat (48 + n) else Char.ofNat (87 + n)

/-- A `\uXXXX` escape for a code unit. -/
def uEscape (n : Nat) : String :=
  ⟨['\\', 'u', hexDigit (n / 4096 % 16), hexDigit (n / 256 % 16),
    hexDigit (n / 16 % 16), hexDigit (n % 16)]⟩

/-- How Python's json encoder (default `ensure_ascii=True`) writes one
character inside a string literal: the two-character escapes for quote,
backslash and the common control characters, `\uXXXX` (with a surrogate
pair above the BMP) for other characters outside the printable ASCII
range, and the character itself otherwise. -/
def jsonEscapeChar (c : Char) : String :=
  if c = '"' then "\\\""
  else if c = '\\' then "\\\\"
  else if c = '\n' then "\\n"
  else if c = '\t' then "\\t"
  else if c = '\r' then "\\r"
  else if c.toNat = 8 then "\\b"
  else if c.toNat = 12 then "\\f"
  else if c.toNat < 32 ∨ c.toNat > 126 then
    if c.toNat < 65536 then uEscape c.toNat
    else uEscape (55296 + (c.toNat - 65536) / 1024) ++ uEscape (56320 + (c.toNat - 65536) % 1024)
  else ⟨[c]⟩

/-- A JSON string literal for `s`. -/
def jsonString (s : String) : String :=
  "\"" ++ String.join (s.data.map jsonEscapeChar) ++ "\""

/-- The text `json.dump(book.to_dict(), f, indent=4)` contributes for one
book nested inside the list: the object at indent 4, its keys at indent 8,
in the insertion order of `Book.to_dict`. -/
def dumpBookJson (b : Book) : String :=
  "    \x7b\n"
    ++ "        \"title\": " ++ jsonString b.title ++ ",\n"
    ++ "        \"author\": " ++ jsonString b.author ++ ",\n"
    ++ "        \"isbn\": " ++ jsonString b.isbn ++ ",\n"
    ++ "        \"status\": " ++ jsonString b.status ++ "\n"
    ++ "    \x7d"

/-- The full text `json.dump([book.to_dict() for book in books], f, indent=4)`
writes: `[]` for an empty catalog, otherwise the pretty-printed list of
objects. -/
def dumpJson (books : List Book) : String :=
  match books with
  | [] => "[]"
  | _ => "[\n" ++ String.intercalate ",\n" (books.map dumpBookJson) ++ "\n]"

/-- Embedding of `LibraryInventory.save_to_file`.  `store` is the file
content before the call (`none` when the file does not exist) and `fault`
is the failure model: `none` when no OSError occurs, `some n` when an
OSError interrupts the write after `n` characters have reached the file.
Because the source opens the file with mode "w", the previous content is
truncated before anything is written, so the content after a failure is a
prefix of the new serialized text regardless of `store`.  The function
never touches `self.books` (first component returned unchanged) and
reports failure by message rather than by raising (third component). -/
def save_to_file (books : List Book) (store : Option String) (fault : Option Nat) :
    List Book × Option String × Bool :=
  match store, fault with
  | _, none => (books, some (dumpJson books), true)
  | _, some n => (books, some (strTake (dumpJson books) n), false)

/-- Embedding of `LibraryInventory.search_by_isbn`: the first book whose
isbn is exactly (case-sensitively) the given string, or `none`. -/
def search_by_isbn (books : List Book) (isbn : String) : Option Book :=
  books.find? (fun b => b.isbn == isbn)

/-- Embedding of `LibraryInventory.add_book`: when `search_by_isbn` finds
the new book's isbn the catalog is returned unchanged together with the
duplicate signal `true` (the printed/logged rejection); otherwise the book
is appended and the signal is `false`.  The function is total: no path
raises. -/
def add_book (books : List Book) (b : Book) : List Book × Bool :=
  match search_by_isbn books b.isbn with
  | some _ => (books, true)
  | none => (books ++ [b], false)

/-- Embedding of `LibraryInventory.search_by_title`: the books whose
lower-cased title contains the lower-cased search string, in catalog
order. -/
def search_by_title (books : List Book) (title : String) : List Book :=
  books.filter (fun b => containsSub (pyLower title).data (pyLower b.title).data)

/-- The shape every book constructed by `Book.init` (the only constructor
the program uses) has: the three text fields are their own trim, and the
status is one of the two lower-cased enum values. -/
abbrev ValidBook (b : Book) : Prop :=
  pyStrip b.title = b.title ∧ pyStrip b.author = b.author ∧ pyStrip b.isbn = b.isbn ∧
    (b.status = "available" ∨ b.status = "issued")

/-- A decoded JSON value of arbitrary shape, as `json.load` can return it:
null, a boolean, a number, a string, an array, or an object. -/
inductive Json where
  | null
  | bool (b : Bool)
  | num (n : Int)
  | str (s : String)
  | arr (elems : List Json)
  | obj (fields : List (String × Json))

/-- Model of `fields.get(key)` on a decoded JSON object: the value at the
first occurrence of the key, or `none` when the key is absent. -/
def jsonGet (fields : List (String × Json)) (k : String) : Option Json :=
  (fields.find? (fun kv => kv.1 == k)).map (fun kv => kv.2)

/-- A decoded JSON value usable where `Book.__init__` expects a string:
`str.strip()`/`str.lower()` raise AttributeError on anything else. -/
def asString : Json → Option String
  | .str s => some s
  | _ => none

/-- Model of `data.get(key, default)` followed by the string operations of
`Book.__init__`: an absent key falls back to the string default, a present
string value is used, and a present non-string value raises
(AttributeError on `.strip()`/`.lower()`), modelled as `none`. -/
def fieldString (fields : List (String × Json)) (k : String) (dflt : String) : Option String :=
  match jsonGet fields k with
  | none => some dflt
  | some v => asString v

/-- Model of the call `Book.from_dict(item)` at `code.py:112` on one
decoded item: `item.get` requires an object (AttributeError otherwise, as
on the elements of `[1]` or on the keys iterated out of a top-level
object), and each of the four retrieved values must be a string; `none`
models the exception. -/
def bookFromJson : Json → Option Book
  | .obj fields =>
      match fieldString fields "title" "", fieldString fields "author" "",
          fieldString fields "isbn" "", fieldString fields "status" "available" with
      | some t, some a, some i, some s => some (Book.init t a i s)
      | _, _, _, _ => none
  | _ => none

/-- Model of Python iteration `for item in data` at `code.py:112`: an
array yields its elements, an object yields its keys (as strings), a
string yields its characters as one-character strings, and null, booleans
and numbers are not iterable — `none` models the TypeError the line
raises on them. -/
def jsonItems : Json → Option (List Json)
  | .arr elems => some elems
  | .obj fields => some (fields.map (fun kv => Json.str kv.1))
  | .str s => some (s.data.map (fun c => Json.str ⟨[c]⟩))
  | .null => none
  | .bool _ => none
  | .num _ => none

/-- Model of the list comprehension at `code.py:112` over `Option`: the
first element on which `Book.from_dict` raises aborts the whole
comprehension. -/
def mapOrRaise (f : Json → Option Book) : List Json → Option (List Book)
  | [] => some []
  | x :: xs =>
      match f x, mapOrRaise f xs with
      | some b, some bs => some (b :: bs)
      | _, _ => none

/-- What `load_from_file` can encounter at the data file, with the decoded
content kept at its general JSON shape. -/
inductive JsonLoadSource where
  | missing
  | decodeError
  | osError
  | decoded (v : Json)

/-- Full embedding of `LibraryInventory.load_from_file` (`code.py:99-121`):
the result is `none` when an exception escapes the method — the `except`
clauses catch only `json.JSONDecodeError` and `OSError`, so the
TypeError/AttributeError that line 112 raises on decoded content outside
the structured-list shape is not handled. -/
def load_from_file_json : JsonLoadSource → Option (List Book × LoadOutcome)
  | .missing => some ([], .freshEmpty)
  | .decodeError => some ([], .corruptWarning)
  | .osError => some ([], .readError)
  | .decoded v =>
      match jsonItems v with
      | none => none
      | some items =>
          match mapOrRaise bookFromJson items with
          | none => none
          | some books => some (books, .loadedOk)

/-- The JSON value `json.load` returns for a well-formed structured-list
store: an array of objects with string values. -/
def jsonOfData (data : List Dict) : Json :=
  .arr (data.map (fun d => .obj (d.map (fun kv => (kv.1, .str kv.2)))))

/-! Helper lemmas shared by the claim theorems. -/

/-- The status stored by `Book.__init__` is "issued" exactly when the input
status lower-cases to "issued", and "available" otherwise. -/
theorem Book.init_status (t a i s : String) :
    (Book.init t a i s).status = if pyLower s = "issued" then "issued" else "available" := by
  unfold Book.init
  by_cases h1 : pyLower s = "issued"
  · simp [h1]
  · by_cases h2 : pyLower s = "available"
    · simp [h1, h2]
    · simp [h1, h2]
      decide

/-- The stored status is always one of the two enum values. -/
theorem Book.init_status_mem (t a i s : String) :
    (Book.init t a i s).status = "available" ∨ (Book.init t a i s).status = "issued" := by
  rw [Book.init_status]
  by_cases h : pyLower s = "issued" <;> simp [h]

/-- On a book whose fields are already normalized, `Book.__init__` is the
identity. -/
theorem Book.init_of_valid (b : Book) (h : ValidBook b) :
    Book.init b.title b.author b.isbn b.status = b := by
  obtain ⟨ht, ha, hi, hs⟩ := h
  cases b with
  | mk t a i s =>
    simp only at ht ha hi hs
    have e1 : pyLower "available" = "available" := by decide
    have e2 : pyLower "issued" = "issued" := by decide
    rcases hs with h | h <;> subst h <;> simp [Book.init, e1, e2, ht, ha, hi]

/-- Serializing a normalized book and deserializing it gives the book
back. -/
theorem Book.from_dict_to_dict (b : Book) (h : ValidBook b) :
    Book.from_dict (Book.to_dict b) = b := by
  have e : Book.from_dict (Book.to_dict b) = Book.init b.title b.author b.isbn b.status := rfl
  rw [e, Book.init_of_valid b h]

/-- The executable substring test agrees with contiguous-sublist
containment. -/
theorem containsSub_iff (needle hay : List Char) :
    containsSub needle hay = true ↔ needle <:+: hay := by
  induction hay with
  | nil =>
    simp [containsSub, List.isPrefixOf_iff_prefix]
  | cons c t ih =>
    simp only [containsSub, Bool.or_eq_true, List.isPrefixOf_iff_prefix, ih,
      List.infix_cons_iff]

/-- The empty string occurs in every string. -/
theorem containsSub_nil (hay : List Char) : containsSub [] hay = true := by
  induction hay with
  | nil => rfl
  | cons c t ih => simp [containsSub, List.isPrefixOf]

/-! Claim theorems. -/

/-- C5: constructing a record stores the trimmed title, author and
identifier, and a status that is "issued" exactly when the input status
case-insensitively equals "issued" and "available" otherwise; the stored
status is always one of the two lower-cased enum values. -/
theorem init_normalizes (t a i s : String) :
    (Book.init t a i s).title = pyStrip t ∧
    (Book.init t a i s).author = pyStrip a ∧
    (Book.init t a i s).isbn = pyStrip i ∧
    (Book.init t a i s).status = (if pyLower s = "issued" then "issued" else "available") ∧
    ((Book.init t a i s).status = "available" ∨ (Book.init t a i s).status = "issued") :=
  ⟨rfl, rfl, rfl, Book.init_status t a i s, Book.init_status_mem t a i s⟩

/-- C10: the status argument is not trimmed before normalization: any
status that lower-cases to "issued" only after stripping surrounding
whitespace is stored as "available", while title, author and identifier
are stored trimmed. -/
theorem init_status_untrimmed (t a i s : String)
    (h1 : pyLower (pyStrip s) = "issued") (h2 : pyLower s ≠ "issued") :
    (Book.init t a i s).status = "available" ∧
    (Book.init t a i s).title = pyStrip t ∧
    (Book.init t a i s).author = pyStrip a ∧
    (Book.init t a i s).isbn = pyStrip i := by
  refine ⟨?_, rfl, rfl, rfl⟩
  rw [Book.init_status]
  simp [h2]

/-- Witness for C10 at the concrete status " issued ". -/
theorem init_status_untrimmed_witness :
    pyLower (pyStrip " issued ") = "issued" ∧ pyLower " issued " ≠ "issued" ∧
      (Book.init "A" "B" "1" " issued ").status = "available" :=
  ⟨by decide, by decide, (init_status_untrimmed "A" "B" "1" " issued " (by decide) (by decide)).1⟩

/-- C2: issue fails and leaves the book unchanged exactly when the status
is already "issued" and otherwise sets it to "issued" and succeeds;
return_book is the exact dual with "available"; both preserve the
two-value status invariant. -/
theorem issue_return_spec (b : Book) :
    (b.status = "issued" → b.issue = (false, b)) ∧
    (b.status ≠ "issued" → b.issue = (true, { b with status := "issued" })) ∧
    (b.status = "available" → b.return_book = (false, b)) ∧
    (b.status ≠ "available" → b.return_book = (true, { b with status := "available" })) ∧
    (ValidBook b → ValidBook b.issue.2 ∧ ValidBook b.return_book.2) := by
  refine ⟨fun h => by simp [Book.issue, h], fun h => by simp [Book.issue, h],
    fun h => by simp [Book.return_book, h], fun h => by simp [Book.return_book, h],
    fun hv => ?_⟩
  obtain ⟨ht, ha, hi, hs⟩ := hv
  constructor
  · by_cases h : b.status = "issued"
    · have e : b.issue.2 = b := by simp [Book.issue, h]
      rw [e]; exact ⟨ht, ha, hi, hs⟩
    · have e : b.issue.2 = { b with status := "issued" } := by simp [Book.issue, h]
      rw [e]; exact ⟨ht, ha, hi, Or.inr rfl⟩
  · by_cases h : b.status = "available"
    · have e : b.return_book.2 = b := by simp [Book.return_book, h]
      rw [e]; exact ⟨ht, ha, hi, hs⟩
    · have e : b.return_book.2 = { b with status := "available" } := by
        simp [Book.return_book, h]
      rw [e]; exact ⟨ht, ha, hi, Or.inl rfl⟩

/-- Witness for C2 on a concrete available book: issue succeeds, return
fails. -/
theorem issue_return_spec_witness :
    (Book.init "Dune" "Herbert" "111" "available").issue
      = (true, { Book.init "Dune" "Herbert" "111" "available" with status := "issued" }) ∧
    (Book.init "Dune" "Herbert" "111" "available").return_book
      = (false, Book.init "Dune" "Herbert" "111" "available") :=
  ⟨(issue_return_spec _).2.1 (by decide), (issue_return_spec _).2.2.1 (by decide)⟩

/-- C1: saving a catalog (the structured list `books.map Book.to_dict`
handed to the JSON encoder) and loading it back reproduces the catalog:
same records in the same order, and every status already equals its
lower-cased form.  The hypothesis states what every record the program
constructs satisfies, since `Book.init` is the only constructor. -/
theorem save_load_round_trip (books : List Book) (h : ∀ b ∈ books, ValidBook b) :
    (load_from_file (.ok (books.map Book.to_dict))).1 = books ∧
      ∀ b ∈ books, b.status = pyLower b.status := by
  constructor
  · show (books.map Book.to_dict).map Book.from_dict = books
    rw [List.map_map]
    have e : ∀ b ∈ books, (Book.from_dict ∘ Book.to_dict) b = id b := fun b hb =>
      Book.from_dict_to_dict b (h b hb)
    rw [List.map_congr_left e, List.map_id]
  · intro b hb
    rcases (h b hb).2.2.2 with hs | hs <;> rw [hs] <;> decide

/-- Witness for C1 on a one-record catalog. -/
theorem save_load_round_trip_witness :
    (load_from_file (.ok ([Book.init "Dune" "Herbert" "111" "available"].map Book.to_dict))).1
      = [Book.init "Dune" "Herbert" "111" "available"] :=
  (save_load_round_trip _ (by decide)).1

/-- C3: adding a record whose identifier is already present leaves the
catalog unchanged and surfaces the duplicate signal; otherwise the record
is appended at the end.  `add_book` is total, so no path raises. -/
theorem add_book_spec (books : List Book) (b : Book) :
    ((∃ r ∈ books, r.isbn = b.isbn) → add_book books b = (books, true)) ∧
    ((∀ r ∈ books, r.isbn ≠ b.isbn) → add_book books b = (books ++ [b], false)) := by
  constructor
  · rintro ⟨r, hr, he⟩
    rcases hs : search_by_isbn books b.isbn with _ | bk
    · exact absurd (beq_iff_eq.mpr he) (by simpa using List.find?_eq_none.mp hs r hr)
    · simp [add_book, hs]
  · intro hall
    have hn : search_by_isbn books b.isbn = none :=
      List.find?_eq_none.mpr (fun r hr => by simpa using hall r hr)
    simp [add_book, hn]

/-- Witness for C3: a duplicate identifier is rejected without mutation. -/
theorem add_book_spec_witness :
    add_book [Book.init "Dune" "Herbert" "111" "available"]
        (Book.init "Sandworms" "Anderson" "111" "available")
      = ([Book.init "Dune" "Herbert" "111" "available"], true) :=
  (add_book_spec _ _).1 ⟨Book.init "Dune" "Herbert" "111" "available", by decide, by decide⟩

/-- C4 counterexample: loading a store whose content holds two entries
with the same identifier yields a catalog with a repeated identifier, so
the uniqueness invariant does not hold in every state reachable through
Load. -/
theorem load_duplicate_isbn_counterexample :
    ¬ (((load_from_file (.ok
        [[("title", "A"), ("author", "B"), ("isbn", "1"), ("status", "available")],
         [("title", "C"), ("author", "D"), ("isbn", "1"), ("status", "issued")]])).1.map
          Book.isbn).Nodup) := by
  decide

/-- C4 as amended: identifier uniqueness is preserved by `add_book` (the
only insertion point that checks), so every state reachable through the
public mutating operations from a duplicate-free state is duplicate-free;
Load does not enforce the invariant. -/
theorem add_book_preserves_unique_isbn (books : List Book) (b : Book)
    (h : (books.map Book.isbn).Nodup) : (((add_book books b).1).map Book.isbn).Nodup := by
  rcases hs : search_by_isbn books b.isbn with _ | bk
  · have hnotin : b.isbn ∉ books.map Book.isbn := by
      intro hmem
      obtain ⟨r, hr, he⟩ := List.mem_map.mp hmem
      exact absurd (beq_iff_eq.mpr he) (by simpa using List.find?_eq_none.mp hs r hr)
    simp only [add_book, hs, List.map_append, List.map_cons, List.map_nil]
    rw [List.nodup_append]
    refine ⟨h, List.nodup_singleton _, ?_⟩
    intro x hx hmem
    rw [List.mem_singleton] at hmem
    exact hnotin (hmem ▸ hx)
  · simpa [add_book, hs] using h

/-- Witness for the amended C4: adding a fresh identifier keeps the
identifier list duplicate-free. -/
theorem add_book_preserves_unique_isbn_witness :
    (((add_book [Book.init "Dune" "Herbert" "111" "available"]
        (Book.init "Emma" "Austen" "222" "available")).1).map Book.isbn).Nodup :=
  add_book_preserves_unique_isbn _ _ (by decide)

/-- C6: deserialization never fails and fills defaults: a missing title,
author or identifier becomes the empty string, a missing status becomes
"available", the resulting status is always one of the two enum values,
and extra keys beyond the four known ones are ignored. -/
theorem from_dict_defaults (d : Dict) :
    (dictGet d "title" = none → (Book.from_dict d).title = "") ∧
    (dictGet d "author" = none → (Book.from_dict d).author = "") ∧
    (dictGet d "isbn" = none → (Book.from_dict d).isbn = "") ∧
    (dictGet d "status" = none → (Book.from_dict d).status = "available") ∧
    ((Book.from_dict d).status = "available" ∨ (Book.from_dict d).status = "issued") ∧
    (∀ t a i s extra,
      Book.from_dict ([("title", t), ("author", a), ("isbn", i), ("status", s)] ++ extra)
        = Book.from_dict [("title", t), ("author", a), ("isbn", i), ("status", s)]) := by
  refine ⟨fun h => ?_, fun h => ?_, fun h => ?_, fun h => ?_, ?_, fun t a i s extra => rfl⟩
  · show pyStrip ((dictGet d "title").getD "") = ""
    rw [h]; decide
  · show pyStrip ((dictGet d "author").getD "") = ""
    rw [h]; decide
  · show pyStrip ((dictGet d "isbn").getD "") = ""
    rw [h]; decide
  · rw [show (Book.from_dict d).status
        = (Book.init ((dictGet d "title").getD "") ((dictGet d "author").getD "")
            ((dictGet d "isbn").getD "") ((dictGet d "status").getD "available")).status from rfl,
      Book.init_status, h]
    decide
  · exact Book.init_status_mem _ _ _ _

/-- Witness for C6: a dictionary holding only an unknown key deserializes
to the all-default record. -/
theorem from_dict_defaults_witness :
    (Book.from_dict [("note", "x")]).title = "" ∧
      (Book.from_dict [("note", "x")]).status = "available" :=
  ⟨(from_dict_defaults _).1 (by decide), (from_dict_defaults _).2.2.2.1 (by decide)⟩

/-- C7 as amended: on an I/O failure during save the in-memory sequence is
unchanged and the failure is signalled rather than raised, but the write
is not atomic: the destination is truncated on open, so after a failure
the file holds a prefix of the new serialized text (possibly empty) in
place of the prior content. -/
theorem save_failure_spec (books : List Book) (store : Option String) (fault : Option Nat) :
    ((save_to_file books store fault).1 = books) ∧
    (fault = none → (save_to_file books store fault).2 = (some (dumpJson books), true)) ∧
    (∀ n, fault = some n →
      (save_to_file books store fault).2.2 = false ∧
      (save_to_file books store fault).2.1 = some (strTake (dumpJson books) n)) := by
  rcases fault with _ | n <;> rcases store with _ | s <;>
    exact ⟨rfl, by simp [save_to_file], by simp [save_to_file]⟩

/-- Witness for the amended C7: a failing save leaves the catalog intact
and reports failure. -/
theorem save_failure_spec_witness :
    (save_to_file [Book.init "Dune" "Herbert" "111" "available"] (some "[]") (some 1)).1
        = [Book.init "Dune" "Herbert" "111" "available"] ∧
    (save_to_file [Book.init "Dune" "Herbert" "111" "available"] (some "[]") (some 1)).2.2
        = false :=
  ⟨(save_failure_spec _ _ _).1, ((save_failure_spec _ _ _).2.2 1 rfl).1⟩

/-- C7 counterexample: with a previously valid persisted file on disk, an
OSError striking before any character is written leaves the file empty —
the prior valid content is destroyed, i.e. the file is half-overwritten. -/
theorem save_truncates_prior_file :
    (save_to_file [Book.init "Dune" "Herbert" "111" "available"]
        (some (dumpJson [Book.init "Dune" "Herbert" "111" "available"])) (some 0)).2.1
      = some "" ∧
    some "" ≠ some (dumpJson [Book.init "Dune" "Herbert" "111" "available"]) := by
  constructor <;> decide

/-- Looking up a key in a string-valued object seen as JSON is looking it
up in the underlying dictionary. -/
theorem jsonGet_map_str (d : Dict) (k : String) :
    jsonGet (d.map (fun kv => (kv.1, Json.str kv.2))) k = (dictGet d k).map Json.str := by
  induction d with
  | nil => rfl
  | cons kv rest ih =>
    by_cases h : kv.1 == k
    · simp [jsonGet, dictGet, List.find?_cons_of_pos, h]
    · simp only [jsonGet, dictGet, List.map_cons] at *
      rw [List.find?_cons_of_neg _ (by simpa using h), List.find?_cons_of_neg _ (by simpa using h)]
      exact ih

/-- On a string-valued object, the checked field access succeeds and gives
the `dict.get` value with its default. -/
theorem fieldString_map_str (d : Dict) (k dflt : String) :
    fieldString (d.map (fun kv => (kv.1, Json.str kv.2))) k dflt
      = some ((dictGet d k).getD dflt) := by
  rw [fieldString, jsonGet_map_str]
  cases dictGet d k <;> rfl

/-- On a string-valued object, `Book.from_dict` does not raise and agrees
with the dictionary-level deserializer. -/
theorem bookFromJson_of_dict (d : Dict) :
    bookFromJson (Json.obj (d.map (fun kv => (kv.1, Json.str kv.2)))) = some (Book.from_dict d) := by
  simp only [bookFromJson, fieldString_map_str]
  rfl

/-- Over a well-formed structured-list store the comprehension raises
nowhere and deserializes elementwise. -/
theorem mapOrRaise_of_dicts (data : List Dict) :
    mapOrRaise bookFromJson (data.map (fun d => Json.obj (d.map (fun kv => (kv.1, Json.str kv.2)))))
      = some (data.map Book.from_dict) := by
  induction data with
  | nil => rfl
  | cons d rest ih => simp [mapOrRaise, bookFromJson_of_dict, ih]

/-- C8: evaluation of the full load model at stores that decode but are
not the structured-list format.  A file holding `[1]`, `42` or
`{"a": "b"}` makes line 112 raise a TypeError/AttributeError that the
`except` clauses do not catch (`none`): Load neither yields an empty
catalog with a corruption signal nor lets the process continue there,
against the claim.  The paths the claim describes correctly behave as
stated: a missing file gives a fresh empty catalog, a file the JSON
decoder rejects gives an empty catalog with the corruption warning, and a
well-formed structured-list store is deserialized elementwise in order. -/
theorem load_wrong_shape_raises :
    load_from_file_json (.decoded (Json.arr [Json.num 1])) = none ∧
    load_from_file_json (.decoded (Json.num 42)) = none ∧
    load_from_file_json (.decoded (Json.obj [("a", Json.str "b")])) = none ∧
    load_from_file_json .missing = some ([], .freshEmpty) ∧
    load_from_file_json .decodeError = some ([], .corruptWarning) ∧
    ∀ data : List Dict,
      load_from_file_json (.decoded (jsonOfData data))
        = some (data.map Book.from_dict, .loadedOk) := by
  refine ⟨rfl, rfl, rfl, rfl, rfl, fun data => ?_⟩
  simp [load_from_file_json, jsonOfData, jsonItems, mapOrRaise_of_dicts]

/-- C9: title search returns exactly the books whose lower-cased title
contains the lower-cased search string, keeps them in catalog order, and
the empty search string returns the whole catalog. -/
theorem search_by_title_spec (books : List Book) (s : String) :
    (∀ b, b ∈ search_by_title books s ↔
        b ∈ books ∧ (pyLower s).data <:+: (pyLower b.title).data) ∧
    List.Sublist (search_by_title books s) books ∧
    search_by_title books "" = books := by
  refine ⟨fun b => ?_, List.filter_sublist books, ?_⟩
  · rw [search_by_title, List.mem_filter, containsSub_iff]
  · rw [search_by_title]
    have e : ∀ b ∈ books,
        containsSub (pyLower "").data (pyLower b.title).data = true := fun b _ => by
      rw [show (pyLower "").data = [] from rfl]
      exact containsSub_nil _
    rw [List.filter_congr e]
    exact List.filter_true books
